import Mathlib

/-!
Verification of the monteneau repository (`src/montenau.py`) against its
natural-language specification.

The development is a shallow embedding of the Python module `montenau.py`:
pure functions become Lean functions, the mutable state of the
`Chaudfontaine` / `DataCoverage` objects (the coverage ledger and the
PostgreSQL measurement table) is passed explicitly, the outside world
(the HTTP fetch and the database connection) is modelled by explicit
outcome parameters, and Python exceptions become explicit error values.
Numeric measurement values are modelled by exact rationals.
-/

namespace Chaudfontaine

/-! ## Basic data model -/

/-- Coverage states of `DataCoverage` (the string values used by
`montenau.py`; `annotated` and `nonvalidated` are declared in the
docstring but never produced). -/
inductive CoverageStatus where
  | unknown
  | bare
  | incomplete
  | covered
  | annotated
  | nonvalidated
deriving DecidableEq, Repr

/-- Station types: the keys of `QUANTITY_CODES` and `quantity_ids` in
`montenau.py`. -/
inductive StationType where
  | precipitation
  | debit
  | hauteur
deriving DecidableEq, Repr

/-- String name of a station type, as used by Python when the
`station_type` string is interpolated into keys and URLs. -/
def stationTypeName : StationType → String
  | .precipitation => "precipitation"
  | .debit => "debit"
  | .hauteur => "hauteur"

/-- Embeds `QUANTITY_CODES` from `montenau.py` (lines 139-143). -/
def QUANTITY_CODES : StationType → String
  | .precipitation => "0015"
  | .debit => "1002"
  | .hauteur => "1011"

/-- Embeds `get_quantity_ids_db` from `montenau.py` (lines 204-221): the function
ignores the database and returns a fixed dict. -/
def get_quantity_ids_db : StationType → Nat
  | .precipitation => 4
  | .hauteur => 5
  | .debit => 6

/-! ## Calendar Builder (`makeCalendar`, lines 442-477) -/

/-- Python `range(a, b)` over natural numbers: the list `a, a+1, ..., b-1`,
empty when `b ≤ a`. -/
def pyRange (a b : Nat) : List Nat := (List.range (b - a)).map (fun i => a + i)

/-- Loop body of `makeCalendar` (lines 458-477), after the two date strings
have been parsed into integers: builds the list of `(year, month)` pairs by
successive appends, exactly as the Python `for` loops do. -/
def makeCalendarLoop (start_year start_month end_year end_month earliest_year : Nat) :
    List (Nat × Nat) :=
  let start_year := max start_year earliest_year
  let calendar : List (Nat × Nat) := []
  let calendar :=
    if start_year < end_year then
      let calendar :=
        (pyRange start_month 13).foldl (fun cal month => cal ++ [(start_year, month)]) calendar
      (pyRange (start_year + 1) end_year).foldl
        (fun cal year => (pyRange 1 13).foldl (fun cal month => cal ++ [(year, month)]) cal)
        calendar
    else calendar
  (pyRange 1 (end_month + 1)).foldl (fun cal month => cal ++ [(end_year, month)]) calendar

/-- Digit test for a character, as matched by `\d` in the Python regexes. -/
def isDigitCh (c : Char) : Bool := c.isDigit

/-- Numeric value of a list of digit characters, most significant first. -/
def natOfDigits (l : List Char) : Nat :=
  l.foldl (fun acc c => acc * 10 + (c.toNat - 48)) 0

/-- The anchored regex `^(\d\d\d\d)\/(\d\d)\/` of `makeCalendar`
(lines 451-452): four digits, a slash, two digits, a slash, at the start of
the string; returns the captured `(year, month)` or `none` when the string
does not match (in Python the destructuring of `findall` would then raise). -/
def parseDateYM (s : String) : Option (Nat × Nat) :=
  match s.data with
  | a :: b :: c :: d :: '/' :: e :: f :: '/' :: _ =>
    if isDigitCh a && isDigitCh b && isDigitCh c && isDigitCh d
        && isDigitCh e && isDigitCh f then
      some (natOfDigits [a, b, c, d], natOfDigits [e, f])
    else none
  | _ => none

/-- Embeds `makeCalendar` from `montenau.py` (lines 442-477): parses the two ISO
date strings and runs the calendar loop. `none` models the `ValueError`
raised when a date string does not match the regex. -/
def makeCalendar (start_date end_date : String) (earliest_year : Nat) :
    Option (List (Nat × Nat)) := do
  let (start_year, start_month) ← parseDateYM start_date
  let (end_year, end_month) ← parseDateYM end_date
  pure (makeCalendarLoop start_year start_month end_year end_month earliest_year)

/-- Modelled from the spec (§4.2): the calendar described segment by
segment — months `start_month..12` of the effective start year, then all
twelve months of every strictly intervening year, then months
`1..end_month` of the end year; and only the last segment when the
effective start year is not strictly below the end year.  Used as the
comparison point for the refinement claim about the Calendar Builder. -/
def calendarSpec (start_year start_month end_year end_month earliest_year : Nat) :
    List (Nat × Nat) :=
  let eff := max start_year earliest_year
  if eff < end_year then
    (List.range' start_month (13 - start_month)).map (fun m => (eff, m)) ++
      (List.range' (eff + 1) (end_year - (eff + 1))).flatMap
        (fun y => (List.range' 1 12).map (fun m => (y, m))) ++
      (List.range' 1 end_month).map (fun m => (end_year, m))
  else
    (List.range' 1 end_month).map (fun m => (end_year, m))

/-! ## Page model and Page Fetcher/Parser (lines 244-396) -/

/-- Shallow model of a fetched and soup-parsed page, carrying exactly the
features `montenau.py` reads from it: the `h1` heading texts (for
`access_authorized`), the `annee`/`mois` form values (for
`parseYearMonth`), and the measurement table rows, each row given as the
texts of its `td` cells (cell 0 is the hour label, the rest are days). -/
structure Document where
  headings : List String
  year : Nat
  month : Nat
  rows : List (List String)
deriving DecidableEq, Repr

/-- Python exceptions that can escape the fetch/ETL pipeline: an uncaught
`HTTPError`/`URLError` from the second, unguarded `urlopen(url).read()`
(line 265), a `ValueError`/`IndexError` from the measurement-table
parsing, or a `psycopg2` error from the storage write. -/
inductive EtlError where
  | networkError
  | parseError
  | storageError
deriving DecidableEq, Repr

/-- Outcome of the two network requests made by `retrieveStatHoraireTab`
(lines 244-268): the guarded probe `urlopen(req)` (line 257) may raise an
`HTTPError` (with a status code) or a `URLError` (unreachable host), both
caught; when the probe succeeds, the second, unguarded
`urlopen(url).read()` on line 265 may itself fail (`readError`) or return
the page. -/
inductive FetchOutcome where
  | httpError (code : Nat)
  | urlError
  | readError
  | success (doc : Document)
deriving DecidableEq, Repr

/-- Embeds `retrieveStatHoraireTab` (lines 244-268).  Only the first
`urlopen(req)` is inside the `try`: an `HTTPError` or `URLError` there is
caught, printed to stderr, and leaves `soup = None`.  The `else:` block
then issues a second request, `urlopen(url).read()` (line 265) — and an
exception raised in a `try`'s `else:` block is not caught by that `try`'s
handlers, so a network failure of the second request propagates to the
caller. -/
def retrieveStatHoraireTab : FetchOutcome → Except EtlError (Option Document)
  | .httpError _ => .ok none
  | .urlError => .ok none
  | .readError => .error .networkError
  | .success doc => .ok (some doc)

/-- Embeds `parseYearMonth` (lines 291-315), restricted to pages whose form
fields hold numeric values: returns the year and month stated by the
page's form. -/
def parseYearMonth (doc : Document) : Nat × Nat := (doc.year, doc.month)

/-- The denial phrase looked up by `access_authorized` (line 326). -/
def accessDeniedPhrase : String := "Accès non autorisé"

/-- Substring test, modelling `re.search` with a literal pattern. -/
def containsPhrase (text pattern : String) : Bool :=
  decide (pattern.data <:+: text.data)

/-- Embeds `access_authorized` (lines 317-328): scan every `h1` heading and clear
the flag when one contains the denial phrase. -/
def access_authorized (doc : Document) : Bool :=
  doc.headings.foldl
    (fun access h1 => if containsPhrase h1 accessDeniedPhrase then false else access) true

/-- Zero-padded decimal rendering of a natural number, as produced by the
Python format specifiers `{:04d}` and `{:02d}`. -/
def padNum (width n : Nat) : String :=
  let s := toString n
  String.mk (List.replicate (width - s.length) '0') ++ s

/-- The timestamp string built on line 375:
`"{:04d}-{:02d}-{:02d} {:02d}:00:00+01".format(year, month, day, hour)`. -/
def datetimeString (year month day hour : Nat) : String :=
  padNum 4 year ++ "-" ++ padNum 2 month ++ "-" ++ padNum 2 day ++ " "
    ++ padNum 2 hour ++ ":00:00+01"

/-- Star test on a cell text, modelling `re.search(r"[\*]", text)`
(line 378). -/
def containsStar (s : String) : Bool := s.data.any (fun c => c == '*')

/-- Removal of every `*`, modelling `text.replace('*', '')` (line 381). -/
def stripStars (s : String) : String := String.mk (s.data.filter (fun c => c != '*'))

/-- Decimal-literal parsing over exact rationals, modelling Python
`float(text)` on the plain decimal strings that appear in the measurement
tables (optional sign, integer digits, optional fraction digits); `none`
models the `ValueError` raised on a non-numeric string.  The value of
`ip.fr` is built in one step as `mkRat (ip * 10^k + fr) (10^k)`. -/
def parseUnsignedDecimal (l : List Char) : Option ℚ :=
  let ip := l.takeWhile isDigitCh
  let rest := l.dropWhile isDigitCh
  match rest with
  | [] => if ip.isEmpty then none else some (mkRat (natOfDigits ip) 1)
  | '.' :: frac =>
    if frac.all isDigitCh && !(ip.isEmpty && frac.isEmpty) then
      some (mkRat (natOfDigits ip * 10 ^ frac.length + natOfDigits frac) (10 ^ frac.length))
    else none
  | _ => none

/-- Signed decimal parsing: see `parseUnsignedDecimal`. -/
def parseDecimal (s : String) : Option ℚ :=
  match s.data with
  | '-' :: rest => (parseUnsignedDecimal rest).map (fun q => -q)
  | l => parseUnsignedDecimal l

/-- Conversion of one non-empty cell text (lines 377-383): when the text
contains a star it is stripped before the `float` conversion, otherwise
the text is converted as is. -/
def parseCell (s : String) : Option ℚ :=
  if containsStar s then parseDecimal (stripStars s) else parseDecimal s

/-- Inner loop of `parseMeasurements` (lines 372-383): walk the day cells
of one row (the hour label cell has already been dropped), skipping empty
cells and emitting one keyed value per filled cell; `none` models the
`ValueError` of a failed `float` conversion. -/
def parseCellsAux (year month hour : Nat) : Nat → List String → Option (List (String × ℚ))
  | _, [] => some []
  | day, s :: rest =>
    if s = "" then parseCellsAux year month hour (day + 1) rest
    else
      match parseCell s with
      | none => none
      | some v =>
        match parseCellsAux year month hour (day + 1) rest with
        | none => none
        | some l => some ((datetimeString year month day hour, v) :: l)

/-- Outer loop of `parseMeasurements` (lines 366-383): one iteration per
hour row, hours counted from 1. -/
def parseHoursAux (year month : Nat) : Nat → List (List String) → Option (List (String × ℚ))
  | _, [] => some []
  | hour, row :: rest =>
    match parseCellsAux year month hour 1 (row.drop 1) with
    | none => none
    | some entries =>
      match parseHoursAux year month (hour + 1) rest with
      | none => none
      | some more => some (entries ++ more)

/-- Embeds `parseMeasurements` (lines 330-385): rows indexed by hours 1..24; a
page with fewer than 24 measurement rows raises `IndexError` in Python,
modelled by `none`.  The resulting association list is in Python dict
insertion order (hour-major, then day). -/
def parseMeasurements (doc : Document) : Option (List (String × ℚ)) :=
  if doc.rows.length < 24 then none
  else parseHoursAux doc.year doc.month 1 (doc.rows.take 24)

/-- Embeds `cleanup_measurement` (lines 387-396): every value at or below the
sentinel `-9000` is replaced by `0` in place (never removed, never made
null — the value type stays `ℚ`); the `station_type` argument is unused by
the source as well. -/
def cleanup_measurement (X : List (String × ℚ)) (_station_type : StationType) :
    List (String × ℚ) :=
  X.map (fun p => if p.2 ≤ -9000 then (p.1, 0) else p)

/-! ## Coverage Ledger (`DataCoverage`, lines 31-84)

The Python `data_coverage` dict is modelled as an association list in
insertion order; assignment to an existing key updates it in place,
assignment to a fresh key appends. -/

/-- In-memory state of a `DataCoverage` object. -/
abbrev Ledger := List (String × CoverageStatus)

/-- Embeds `DataCoverage.get_status` (lines 66-68); `none` models the `KeyError`
raised on an untracked key. -/
def get_status (dc : Ledger) (coverage_key : String) : Option CoverageStatus :=
  dc.lookup coverage_key

/-- Embeds `DataCoverage.is_tracked` (lines 75-77). -/
def is_tracked (dc : Ledger) (coverage_key : String) : Bool :=
  dc.any (fun p => p.1 == coverage_key)

/-- Embeds `DataCoverage.set_status` (lines 70-73): Python dict assignment. -/
def set_status (dc : Ledger) (coverage_key : String) (coverage_status : CoverageStatus) :
    Ledger :=
  if dc.any (fun p => p.1 == coverage_key) then
    dc.map (fun p => if p.1 == coverage_key then (coverage_key, coverage_status) else p)
  else dc ++ [(coverage_key, coverage_status)]

/-! ## Measurement storage (`insert_records_measurement`, lines 398-440) -/

/-- Uniqueness key of the `wallonie.measurement` table:
`(datetime, station_code, quantity_id)`. -/
abbrev RowKey := String × Nat × Nat

/-- The measurement table, as a list of rows with unique keys. -/
abbrev Storage := List (RowKey × ℚ)

/-- One `INSERT ... ON CONFLICT DO UPDATE` (lines 414-432): update the row
in place when the key exists, append otherwise. -/
def upsertRow (storage : Storage) (k : RowKey) (v : ℚ) : Storage :=
  if storage.any (fun p => p.1 == k) then
    storage.map (fun p => if p.1 == k then (k, v) else p)
  else storage ++ [(k, v)]

/-- Embeds `insert_records_measurement` (lines 398-440): one upsert per entry of
`X`, in order.  The `storageFails` flag models a failing
`psycopg2.connect`; `none` is the raised exception, in which case nothing
is committed.  The `year`/`month` parameters are accepted and ignored,
as in the source. -/
def insert_records_measurement (storageFails : Bool) (X : List (String × ℚ))
    (station_type : StationType) (station_code : Nat) (_year _month : Nat)
    (storage : Storage) : Option Storage :=
  if storageFails then none
  else
    some (X.foldl
      (fun st p => upsertRow st (p.1, station_code, get_quantity_ids_db station_type) p.2)
      storage)

/-! ## URL construction (`build_url_StatHoraireTab`, lines 223-242) -/

/-- Embeds `build_url_StatHoraireTab` (lines 223-242).  The Python truthiness
test `if(year)` is modelled for natural-number arguments: `None` and `0`
are falsy. -/
def build_url_StatHoraireTab (station_type : StationType) (station_code : Nat)
    (year month : Option Nat) : String :=
  let url := "http://voies-hydrauliques.wallonie.be/opencms/opencms/fr/hydro/Archive/annuaires/stathorairetab.do"
  let url := url ++ "?code=" ++ toString station_code ++ QUANTITY_CODES station_type
  let url := match year with
    | some y => if y ≠ 0 then url ++ "&annee=" ++ toString y else url
    | none => url
  let url := match month with
    | some m => if m ≠ 0 then url ++ "&mois=" ++ toString m else url
    | none => url
  url ++ "&xt=prt"

/-! ## Station-Month Processor (lines 489-571) -/

/-- Result of `etl_station_month`, with the final storage state made
explicit.  `exn = some e` means the Python call raised `e` (so `coverage`
is not a returned value); `wroteStorage` records whether
`insert_records_measurement` ran to completion. -/
structure EtlResult where
  exn : Option EtlError
  coverage : CoverageStatus
  storage : Storage
  wroteStorage : Bool
deriving DecidableEq, Repr

/-- Embeds `etl_station_month` (lines 489-515): fetch, check authorization,
parse, clean, store; a caught network failure and denied access are
classified `bare`, a completed store is classified `covered`.  An
exception raised inside `retrieveStatHoraireTab` (the unguarded second
request) propagates unchanged, since `etl_station_month` has no handler. -/
def etl_station_month (fetch : FetchOutcome) (storageFails : Bool)
    (station_type : StationType) (station_code year month : Nat)
    (storage : Storage) : EtlResult :=
  let _url := build_url_StatHoraireTab station_type station_code (some year) (some month)
  match retrieveStatHoraireTab fetch with
  | .error e =>
    { exn := some e, coverage := .unknown, storage := storage, wroteStorage := false }
  | .ok none =>
    { exn := none, coverage := .bare, storage := storage, wroteStorage := false }
  | .ok (some doc) =>
    if access_authorized doc then
      match parseMeasurements doc with
      | none =>
        { exn := some .parseError, coverage := .unknown, storage := storage,
          wroteStorage := false }
      | some X =>
        let X := cleanup_measurement X station_type
        match insert_records_measurement storageFails X station_type station_code
            year month storage with
        | none =>
          { exn := some .storageError, coverage := .unknown, storage := storage,
            wroteStorage := false }
        | some storage2 =>
          { exn := none, coverage := .covered, storage := storage2, wroteStorage := true }
    else
      { exn := none, coverage := .bare, storage := storage, wroteStorage := false }

/-- Ambient time observations of the running process: the
`time.localtime()` year and month used to default `year`/`month`
(lines 543-547), and the class attributes `recent_year`, `recent_month`,
`soon_year`, `soon_month` computed once at import from
`time.time() ∓ TIME_MARGIN` with `TIME_MARGIN = 3600 * 25` seconds
(lines 159-161).  The wall-clock arithmetic itself is outside the
embedding; the claims treat these year-months as given. -/
structure Clock where
  tm_year : Nat
  tm_mon : Nat
  recent_year : Nat
  recent_month : Nat
  soon_year : Nat
  soon_month : Nat
deriving DecidableEq, Repr

/-- Mutable state touched by `process_station_month`: the coverage ledger
and the measurement table. -/
structure ProcState where
  ledger : Ledger
  storage : Storage
deriving DecidableEq, Repr

/-- Result of `process_station_month`, with the final state, whether a
fetch was attempted, and whether a storage write completed.  `exn = some e`
means the call raised `e` (nothing was returned). -/
structure ProcResult where
  exn : Option EtlError
  status : CoverageStatus
  ledger : Ledger
  storage : Storage
  fetched : Bool
  wroteStorage : Bool
deriving DecidableEq, Repr

/-- The serialized coverage key `"{}-{}-{}-{}".format(...)` (line 550). -/
def coverageKey (station_type : StationType) (station_code year month : Nat) : String :=
  stationTypeName station_type ++ "-" ++ toString station_code ++ "-"
    ++ toString year ++ "-" ++ toString month

/-- Status lookup with default (lines 553-556): tracked keys report their
ledger status, untracked keys report `unknown`. -/
def current_status (dc : Ledger) (coverage_key : String) : CoverageStatus :=
  if is_tracked dc coverage_key then (get_status dc coverage_key).getD .unknown
  else .unknown

/-- The recency override (lines 561-564): a `covered` outcome for the
"recent" or "soon" year-month is downgraded to `incomplete`; every other
outcome passes through unchanged. -/
def recencyAdjust (clock : Clock) (year month : Nat) (cov : CoverageStatus) :
    CoverageStatus :=
  if cov = .covered ∧
      ((year, month) = (clock.recent_year, clock.recent_month) ∨
        (year, month) = (clock.soon_year, clock.soon_month)) then
    CoverageStatus.incomplete
  else cov

/-- Embeds `process_station_month` (lines 532-571): skip unless the current
status is wanted; otherwise run the ETL, downgrade a `covered` outcome of
the near-now year-month to `incomplete`, and record the new status in the
ledger.  An exception raised by the ETL propagates, leaving the ledger
untouched. -/
def process_station_month (clock : Clock) (fetch : FetchOutcome) (storageFails : Bool)
    (station_type : StationType) (station_code : Nat) (year? month? : Option Nat)
    (want_covered : List CoverageStatus) (st : ProcState) : ProcResult :=
  let year := year?.getD clock.tm_year
  let month := month?.getD clock.tm_mon
  let coverage_key := coverageKey station_type station_code year month
  let old_coverage := current_status st.ledger coverage_key
  if old_coverage ∈ want_covered then
    let r := etl_station_month fetch storageFails station_type station_code year month
      st.storage
    match r.exn with
    | some e =>
      { exn := some e, status := r.coverage, ledger := st.ledger, storage := r.storage,
        fetched := true, wroteStorage := r.wroteStorage }
    | none =>
      let new_coverage := recencyAdjust clock year month r.coverage
      { exn := none, status := new_coverage,
        ledger := set_status st.ledger coverage_key new_coverage, storage := r.storage,
        fetched := true, wroteStorage := r.wroteStorage }
  else
    { exn := none, status := old_coverage, ledger := st.ledger, storage := st.storage,
      fetched := false, wroteStorage := false }

/-! ## Concrete objects used by the witnesses and counterexamples -/

/-- A well-formed measurement page with 24 rows, all cells empty (only the
hour-label cell is present in each row). -/
def emptyPage : Document := ⟨[], 2019, 3, List.replicate 24 ["hdr"]⟩

/-- A well-formed measurement page whose day-1 hour-1 cell carries the
annotated text `12.3*`. -/
def starPage : Document := ⟨[], 2019, 3, ["hdr", "12.3*"] :: List.replicate 23 ["hdr"]⟩

/-- A clock whose "recent" year-month is 2019/03. -/
def clockNear : Clock := ⟨2019, 5, 2019, 3, 2019, 4⟩

/-- A clock for which 2019/03 is neither the "recent" nor the "soon"
year-month. -/
def clockFar : Clock := ⟨2019, 5, 2019, 4, 2019, 5⟩

/-! ## Helper lemmas -/

lemma foldl_append_singleton {α : Type} (f : Nat → α) :
    ∀ (l : List Nat) (acc : List α),
      l.foldl (fun cal m => cal ++ [f m]) acc = acc ++ l.map f := by
  intro l
  induction l with
  | nil => simp
  | cons x xs ih => intro acc; simp [ih, List.append_assoc]

lemma foldl_years_flatMap (inner : List Nat) :
    ∀ (l : List Nat) (acc : List (Nat × Nat)),
      l.foldl (fun cal y => inner.foldl (fun cal m => cal ++ [(y, m)]) cal) acc =
        acc ++ l.flatMap (fun y => inner.map (fun m => (y, m))) := by
  intro l
  induction l with
  | nil => simp
  | cons x xs ih =>
    intro acc
    simp only [List.foldl_cons, List.flatMap_cons]
    rw [foldl_append_singleton (fun m => (x, m)) inner acc, ih, List.append_assoc]

lemma pyRange_eq_range' (a b : Nat) : pyRange a b = List.range' a (b - a) := by
  rw [pyRange, List.range'_eq_map_range]

lemma is_tracked_eq_lookup_isSome (dc : Ledger) (k : String) :
    is_tracked dc k = (dc.lookup k).isSome := by
  induction dc with
  | nil => rfl
  | cons p rest ih =>
    obtain ⟨p1, p2⟩ := p
    by_cases hp : p1 = k
    · subst hp; simp [is_tracked, List.lookup]
    · have h1 : (p1 == k) = false := by simpa using hp
      have h2 : (k == p1) = false := by simpa using Ne.symm hp
      simp only [is_tracked, List.any_cons, h1, Bool.false_or, List.lookup, h2]
      exact ih

lemma lookup_set_status_self (dc : Ledger) (k : String) (v : CoverageStatus) :
    (set_status dc k v).lookup k = some v := by
  induction dc with
  | nil => simp [set_status, List.lookup]
  | cons p rest ih =>
    obtain ⟨p1, p2⟩ := p
    by_cases hp : p1 = k
    · subst hp
      simp [set_status, List.lookup]
    · have h1 : (p1 == k) = false := by simpa using hp
      have h2 : (k == p1) = false := by simpa using Ne.symm hp
      cases hrest : rest.any (fun q => q.1 == k) with
      | true =>
        have hmap : set_status rest k v =
            rest.map (fun q => if q.1 == k then (k, v) else q) := by
          simp [set_status, hrest]
        have hstep : set_status ((p1, p2) :: rest) k v =
            (p1, p2) :: rest.map (fun q => if q.1 == k then (k, v) else q) := by
          simp [set_status, List.any_cons, h1, hrest, hp]
        rw [hstep]
        simp only [List.lookup, h2]
        rw [← hmap]
        exact ih
      | false =>
        have happ : set_status rest k v = rest ++ [(k, v)] := by
          simp [set_status, hrest]
        have hstep : set_status ((p1, p2) :: rest) k v = (p1, p2) :: (rest ++ [(k, v)]) := by
          simp [set_status, List.any_cons, h1, hrest, hp]
        rw [hstep]
        simp only [List.lookup, h2]
        rw [← happ]
        exact ih

lemma current_status_set_status_self (dc : Ledger) (k : String) (v : CoverageStatus) :
    current_status (set_status dc k v) k = v := by
  unfold current_status get_status
  rw [is_tracked_eq_lookup_isSome, lookup_set_status_self]
  rfl

/-- Skip path of the processor (lines 566-568). -/
lemma process_skip (clock : Clock) (fetch : FetchOutcome) (storageFails : Bool)
    (t : StationType) (c y m : Nat) (wc : List CoverageStatus) (st : ProcState)
    (h : current_status st.ledger (coverageKey t c y m) ∉ wc) :
    process_station_month clock fetch storageFails t c (some y) (some m) wc st =
      { exn := none, status := current_status st.ledger (coverageKey t c y m),
        ledger := st.ledger, storage := st.storage, fetched := false,
        wroteStorage := false } := by
  unfold process_station_month
  simp [h]

/-- Fetch path of the processor when the ETL returns normally
(lines 558-565). -/
lemma process_run_of_exn_none (clock : Clock) (fetch : FetchOutcome) (storageFails : Bool)
    (t : StationType) (c y m : Nat) (wc : List CoverageStatus) (st : ProcState)
    (hw : current_status st.ledger (coverageKey t c y m) ∈ wc)
    (hexn : (etl_station_month fetch storageFails t c y m st.storage).exn = none) :
    process_station_month clock fetch storageFails t c (some y) (some m) wc st =
      { exn := none,
        status := recencyAdjust clock y m
          (etl_station_month fetch storageFails t c y m st.storage).coverage,
        ledger := set_status st.ledger (coverageKey t c y m)
          (recencyAdjust clock y m
            (etl_station_month fetch storageFails t c y m st.storage).coverage),
        storage := (etl_station_month fetch storageFails t c y m st.storage).storage,
        fetched := true,
        wroteStorage :=
          (etl_station_month fetch storageFails t c y m st.storage).wroteStorage } := by
  unfold process_station_month
  simp only [Option.getD_some, if_pos hw, hexn]

/-- Fetch path of the processor when the ETL raises (line 560). -/
lemma process_run_of_exn_some (clock : Clock) (fetch : FetchOutcome) (storageFails : Bool)
    (t : StationType) (c y m : Nat) (wc : List CoverageStatus) (st : ProcState)
    (e : EtlError)
    (hw : current_status st.ledger (coverageKey t c y m) ∈ wc)
    (hexn : (etl_station_month fetch storageFails t c y m st.storage).exn = some e) :
    process_station_month clock fetch storageFails t c (some y) (some m) wc st =
      { exn := some e,
        status := (etl_station_month fetch storageFails t c y m st.storage).coverage,
        ledger := st.ledger,
        storage := (etl_station_month fetch storageFails t c y m st.storage).storage,
        fetched := true,
        wroteStorage :=
          (etl_station_month fetch storageFails t c y m st.storage).wroteStorage } := by
  unfold process_station_month
  simp only [Option.getD_some, if_pos hw, hexn]

lemma etl_of_fetch_none (fetch : FetchOutcome) (storageFails : Bool) (t : StationType)
    (c y m : Nat) (storage : Storage) (h : retrieveStatHoraireTab fetch = .ok none) :
    etl_station_month fetch storageFails t c y m storage =
      { exn := none, coverage := .bare, storage := storage, wroteStorage := false } := by
  unfold etl_station_month
  rw [h]

lemma etl_of_read_error (storageFails : Bool) (t : StationType) (c y m : Nat)
    (storage : Storage) :
    etl_station_month .readError storageFails t c y m storage =
      { exn := some .networkError, coverage := .unknown, storage := storage,
        wroteStorage := false } := by
  unfold etl_station_month
  rfl

lemma etl_of_denied (doc : Document) (storageFails : Bool) (t : StationType)
    (c y m : Nat) (storage : Storage) (hacc : access_authorized doc = false) :
    etl_station_month (.success doc) storageFails t c y m storage =
      { exn := none, coverage := .bare, storage := storage, wroteStorage := false } := by
  unfold etl_station_month
  simp [retrieveStatHoraireTab, hacc]

lemma etl_of_parse_none (doc : Document) (storageFails : Bool) (t : StationType)
    (c y m : Nat) (storage : Storage) (hacc : access_authorized doc = true)
    (hp : parseMeasurements doc = none) :
    etl_station_month (.success doc) storageFails t c y m storage =
      { exn := some .parseError, coverage := .unknown, storage := storage,
        wroteStorage := false } := by
  unfold etl_station_month
  simp [retrieveStatHoraireTab, hacc, hp]

lemma etl_of_insert_none (doc : Document) (X : List (String × ℚ)) (storageFails : Bool)
    (t : StationType) (c y m : Nat) (storage : Storage)
    (hacc : access_authorized doc = true) (hp : parseMeasurements doc = some X)
    (hins : insert_records_measurement storageFails (cleanup_measurement X t) t c y m
      storage = none) :
    etl_station_month (.success doc) storageFails t c y m storage =
      { exn := some .storageError, coverage := .unknown, storage := storage,
        wroteStorage := false } := by
  unfold etl_station_month
  simp [retrieveStatHoraireTab, hacc, hp, hins]

lemma etl_of_insert_some (doc : Document) (X : List (String × ℚ)) (s2 : Storage)
    (storageFails : Bool) (t : StationType) (c y m : Nat) (storage : Storage)
    (hacc : access_authorized doc = true) (hp : parseMeasurements doc = some X)
    (hins : insert_records_measurement storageFails (cleanup_measurement X t) t c y m
      storage = some s2) :
    etl_station_month (.success doc) storageFails t c y m storage =
      { exn := none, coverage := .covered, storage := s2, wroteStorage := true } := by
  unfold etl_station_month
  simp [retrieveStatHoraireTab, hacc, hp, hins]

lemma etl_covered_exn_none (fetch : FetchOutcome) (storageFails : Bool) (t : StationType)
    (c y m : Nat) (storage : Storage)
    (h : (etl_station_month fetch storageFails t c y m storage).coverage = .covered) :
    (etl_station_month fetch storageFails t c y m storage).exn = none ∧
      (etl_station_month fetch storageFails t c y m storage).wroteStorage = true := by
  cases fetch with
  | httpError code =>
    rw [etl_of_fetch_none (.httpError code) storageFails t c y m storage rfl] at h
    simp at h
  | urlError =>
    rw [etl_of_fetch_none .urlError storageFails t c y m storage rfl] at h
    simp at h
  | readError =>
    rw [etl_of_read_error storageFails t c y m storage] at h
    simp at h
  | success doc =>
    cases hacc : access_authorized doc with
    | false =>
      rw [etl_of_denied doc storageFails t c y m storage hacc] at h
      simp at h
    | true =>
      cases hp : parseMeasurements doc with
      | none =>
        rw [etl_of_parse_none doc storageFails t c y m storage hacc hp] at h
        simp at h
      | some X =>
        cases hins : insert_records_measurement storageFails (cleanup_measurement X t) t c
            y m storage with
        | none =>
          rw [etl_of_insert_none doc X storageFails t c y m storage hacc hp hins] at h
          simp at h
        | some s2 =>
          rw [etl_of_insert_some doc X s2 storageFails t c y m storage hacc hp hins]
          exact ⟨rfl, rfl⟩

lemma stripStars_of_not_containsStar {s : String} (h : containsStar s = false) :
    stripStars s = s := by
  obtain ⟨l⟩ := s
  simp only [containsStar, List.any_eq_false] at h
  unfold stripStars
  congr 1
  apply List.filter_eq_self.mpr
  intro c hc
  simpa using h c hc

lemma parseCell_eq_parseDecimal_stripStars (s : String) :
    parseCell s = parseDecimal (stripStars s) := by
  unfold parseCell
  cases hs : containsStar s with
  | true => simp
  | false => simp [stripStars_of_not_containsStar hs]

lemma parseCellsAux_mem (year month hour : Nat) :
    ∀ (cells : List String) (day0 : Nat) (X : List (String × ℚ)) (j : Nat) (s : String),
      parseCellsAux year month hour day0 cells = some X →
      cells.get? j = some s → s ≠ "" →
      ∃ v : ℚ, parseCell s = some v ∧
        (datetimeString year month (day0 + j) hour, v) ∈ X := by
  intro cells
  induction cells with
  | nil => intro day0 X j s hparse hget; simp at hget
  | cons c rest ih =>
    intro day0 X j s hparse hget hne
    by_cases hc : c = ""
    · subst hc
      rw [parseCellsAux, if_pos rfl] at hparse
      cases j with
      | zero =>
        simp only [List.get?_cons_zero, Option.some_inj] at hget
        exact absurd hget.symm hne
      | succ j' =>
        simp only [List.get?_cons_succ] at hget
        obtain ⟨v, hv, hmem⟩ := ih (day0 + 1) X j' s hparse hget hne
        exact ⟨v, hv, by rwa [show day0 + 1 + j' = day0 + (j' + 1) from by omega] at hmem⟩
    · rw [parseCellsAux, if_neg hc] at hparse
      cases hpc : parseCell c with
      | none => rw [hpc] at hparse; simp at hparse
      | some v0 =>
        rw [hpc] at hparse
        cases hrec : parseCellsAux year month hour (day0 + 1) rest with
        | none => rw [hrec] at hparse; simp at hparse
        | some l =>
          rw [hrec, Option.some_inj] at hparse
          subst hparse
          cases j with
          | zero =>
            simp only [List.get?_cons_zero, Option.some_inj] at hget
            subst hget
            exact ⟨v0, hpc, by simp⟩
          | succ j' =>
            simp only [List.get?_cons_succ] at hget
            obtain ⟨v, hv, hmem⟩ := ih (day0 + 1) l j' s hrec hget hne
            refine ⟨v, hv, List.mem_cons_of_mem _ ?_⟩
            rwa [show day0 + 1 + j' = day0 + (j' + 1) from by omega] at hmem

lemma parseHoursAux_mem (year month : Nat) :
    ∀ (rows : List (List String)) (hour0 : Nat) (X : List (String × ℚ)) (i : Nat)
      (row : List String) (j : Nat) (s : String),
      parseHoursAux year month hour0 rows = some X →
      rows.get? i = some row →
      (row.drop 1).get? j = some s → s ≠ "" →
      ∃ v : ℚ, parseCell s = some v ∧
        (datetimeString year month (1 + j) (hour0 + i), v) ∈ X := by
  intro rows
  induction rows with
  | nil => intro hour0 X i row j s hparse hget; simp at hget
  | cons r rest ih =>
    intro hour0 X i row j s hparse hget hcell hne
    rw [parseHoursAux] at hparse
    cases hentries : parseCellsAux year month hour0 1 (r.drop 1) with
    | none => rw [hentries] at hparse; simp at hparse
    | some entries =>
      rw [hentries] at hparse
      cases hmore : parseHoursAux year month (hour0 + 1) rest with
      | none => rw [hmore] at hparse; simp at hparse
      | some more =>
        rw [hmore, Option.some_inj] at hparse
        subst hparse
        cases i with
        | zero =>
          simp only [List.get?_cons_zero, Option.some_inj] at hget
          subst hget
          obtain ⟨v, hv, hmem⟩ := parseCellsAux_mem year month hour0 (r.drop 1) 1 entries
            j s hentries hcell hne
          exact ⟨v, hv, by simpa using List.mem_append_left more hmem⟩
        | succ i' =>
          simp only [List.get?_cons_succ] at hget
          obtain ⟨v, hv, hmem⟩ := ih (hour0 + 1) more i' row j s hmore hget hcell hne
          refine ⟨v, hv, ?_⟩
          rw [show hour0 + (i' + 1) = hour0 + 1 + i' from by omega]
          exact List.mem_append_right entries hmem

/-- After a normally returning call, the ledger's current status of the
processed key equals the returned status. -/
lemma process_status_current (clock : Clock) (fetch : FetchOutcome) (storageFails : Bool)
    (t : StationType) (c y m : Nat) (wc : List CoverageStatus) (st : ProcState)
    (hexn :
      (process_station_month clock fetch storageFails t c (some y) (some m) wc st).exn =
        none) :
    current_status
        (process_station_month clock fetch storageFails t c (some y) (some m) wc st).ledger
        (coverageKey t c y m) =
      (process_station_month clock fetch storageFails t c (some y) (some m) wc st).status := by
  by_cases hw : current_status st.ledger (coverageKey t c y m) ∈ wc
  · cases hexn2 : (etl_station_month fetch storageFails t c y m st.storage).exn with
    | some e =>
      rw [process_run_of_exn_some clock fetch storageFails t c y m wc st e hw hexn2] at hexn
      simp at hexn
    | none =>
      rw [process_run_of_exn_none clock fetch storageFails t c y m wc st hw hexn2]
      exact current_status_set_status_self _ _ _
  · rw [process_skip clock fetch storageFails t c y m wc st hw]

/-! ## Claims -/

/-- Claim C2 (code bug): the Calendar Builder applied to a window whose
start and end are both 2019/03 with `earliest_year = 2000` does not return
`[(2019, 3)]`.  Because the final loop always appends months
`1..end_month` of the end year, ignoring `start_month` when the effective
start year equals the end year, it returns `[(2019, 1), (2019, 2),
(2019, 3)]` — contradicting the function's own docstring, which promises
"all year/month combinations between start_date and end_date". -/
theorem claim_C2 :
    makeCalendar "2019/03/01 00:00:00+01" "2019/03/01 00:00:00+01" 2000 =
        some [(2019, 1), (2019, 2), (2019, 3)] ∧
      makeCalendarLoop 2019 3 2019 3 2000 = [(2019, 1), (2019, 2), (2019, 3)] ∧
      makeCalendar "2019/03/01 00:00:00+01" "2019/03/01 00:00:00+01" 2000 ≠
        some [(2019, 3)] := by
  decide

/-- Claim C3: for every availability window and `earliest_year` floor, the
Calendar Builder returns exactly the sequence described by the spec —
months `start_month..12` of the effective start year, then months `1..12`
of every strictly intervening year, then months `1..end_month` of the end
year, when the effective start year is strictly below the end year; and
only months `1..end_month` of the end year otherwise. -/
theorem claim_C3 (start_year start_month end_year end_month earliest_year : Nat) :
    makeCalendarLoop start_year start_month end_year end_month earliest_year =
      calendarSpec start_year start_month end_year end_month earliest_year := by
  unfold makeCalendarLoop calendarSpec
  by_cases h : max start_year earliest_year < end_year
  · simp only [if_pos h]
    rw [foldl_append_singleton (fun m => (max start_year earliest_year, m)),
      foldl_years_flatMap (pyRange 1 13),
      foldl_append_singleton (fun m => (end_year, m)),
      pyRange_eq_range' start_month 13, pyRange_eq_range' 1 13,
      pyRange_eq_range' (max start_year earliest_year + 1) end_year,
      pyRange_eq_range' 1 (end_month + 1)]
    simp [List.append_assoc]
  · simp only [if_neg h]
    rw [foldl_append_singleton (fun m => (end_year, m)), pyRange_eq_range' 1 (end_month + 1)]
    simp

/-- Claim C5: when the current coverage status of the unit (defaulting to
`unknown` when untracked) is not in `want_covered`, the Station-Month
Processor performs no fetch and no storage write, leaves the ledger and
the storage unchanged, and returns the unchanged status. -/
theorem claim_C5 (clock : Clock) (fetch : FetchOutcome) (storageFails : Bool)
    (t : StationType) (c y m : Nat) (wc : List CoverageStatus) (st : ProcState)
    (h : current_status st.ledger (coverageKey t c y m) ∉ wc) :
    process_station_month clock fetch storageFails t c (some y) (some m) wc st =
      { exn := none, status := current_status st.ledger (coverageKey t c y m),
        ledger := st.ledger, storage := st.storage, fetched := false,
        wroteStorage := false } :=
  process_skip clock fetch storageFails t c y m wc st h

/-- Witness for C5: an untracked key (status `unknown`) with
`want_covered = [covered]` is skipped untouched. -/
theorem claim_C5_witness :
    process_station_month clockFar .urlError false .hauteur 2536 (some 2019) (some 3)
        [.covered] ⟨[], []⟩ =
      { exn := none, status := current_status [] (coverageKey .hauteur 2536 2019 3),
        ledger := [], storage := [], fetched := false, wroteStorage := false } :=
  claim_C5 clockFar .urlError false .hauteur 2536 2019 3 [.covered] ⟨[], []⟩ (by decide)

/-- Claim C9: a key that is untracked and whose default status `unknown`
is not wanted stays untracked: the processor returns `unknown` without
inserting a ledger entry. -/
theorem claim_C9 (clock : Clock) (fetch : FetchOutcome) (storageFails : Bool)
    (t : StationType) (c y m : Nat) (wc : List CoverageStatus) (st : ProcState)
    (hnt : is_tracked st.ledger (coverageKey t c y m) = false)
    (hwc : CoverageStatus.unknown ∉ wc) :
    (process_station_month clock fetch storageFails t c (some y) (some m) wc st).status =
        .unknown ∧
      (process_station_month clock fetch storageFails t c (some y) (some m) wc st).ledger =
        st.ledger ∧
      is_tracked
        (process_station_month clock fetch storageFails t c (some y) (some m) wc st).ledger
        (coverageKey t c y m) = false := by
  have hcur : current_status st.ledger (coverageKey t c y m) = .unknown := by
    simp [current_status, hnt]
  have hskip := process_skip clock fetch storageFails t c y m wc st (by rw [hcur]; exact hwc)
  rw [hskip]
  exact ⟨hcur, rfl, hnt⟩

/-- Witness for C9: concrete untracked key with `want_covered = [covered]`. -/
theorem claim_C9_witness :
    (process_station_month clockFar .urlError false .debit 6526 (some 2020) (some 7)
        [.covered] ⟨[], []⟩).status = .unknown ∧
      (process_station_month clockFar .urlError false .debit 6526 (some 2020) (some 7)
        [.covered] ⟨[], []⟩).ledger = [] ∧
      is_tracked
        (process_station_month clockFar .urlError false .debit 6526 (some 2020) (some 7)
          [.covered] ⟨[], []⟩).ledger (coverageKey .debit 6526 2020 7) = false :=
  claim_C9 clockFar .urlError false .debit 6526 2020 7 [.covered] ⟨[], []⟩ (by decide)
    (by decide)

/-- Claim C6 (code bug): the claim holds only for the guarded first
request.  A network failure of the probe `urlopen(req)` is caught and the
unit is classified `bare` (first conjunct, an unreachable host on a wanted
unit).  But the real fetch is a second, unguarded `urlopen(url).read()` in
the `try`'s `else:` block (line 265), where the `except` handlers do not
apply: a network failure there propagates out of the Station-Month
Processor and nothing is recorded in the ledger (remaining conjuncts) —
the batch can crash on a network failure, contrary to the claim and to the
code's own skip-and-revisit design. -/
theorem claim_C6 :
    process_station_month clockFar .urlError false .hauteur 2536 (some 2019) (some 3)
        [.unknown] ⟨[], []⟩ =
      { exn := none, status := .bare,
        ledger := set_status [] (coverageKey .hauteur 2536 2019 3) .bare,
        storage := [], fetched := true, wroteStorage := false } ∧
      (process_station_month clockFar .readError false .hauteur 2536 (some 2019) (some 3)
        [.unknown] ⟨[], []⟩).exn = some .networkError ∧
      (process_station_month clockFar .readError false .hauteur 2536 (some 2019) (some 3)
        [.unknown] ⟨[], []⟩).ledger = [] ∧
      (process_station_month clockFar .readError false .hauteur 2536 (some 2019) (some 3)
        [.unknown] ⟨[], []⟩).status ≠ .bare := by
  decide

/-- Claim C10: when the storage write raises (failing connection), the
exception propagates out of the Station-Month Processor, and both the
ledger entry and the storage are left unchanged — the status update only
happens after a successful write. -/
theorem claim_C10 (clock : Clock) (t : StationType) (c y m : Nat)
    (wc : List CoverageStatus) (st : ProcState) (doc : Document) (X : List (String × ℚ))
    (hw : current_status st.ledger (coverageKey t c y m) ∈ wc)
    (hacc : access_authorized doc = true)
    (hparse : parseMeasurements doc = some X) :
    (process_station_month clock (.success doc) true t c (some y) (some m) wc st).exn =
        some .storageError ∧
      (process_station_month clock (.success doc) true t c (some y) (some m) wc st).ledger =
        st.ledger ∧
      (process_station_month clock (.success doc) true t c (some y) (some m) wc
        st).storage = st.storage := by
  have hins : insert_records_measurement true (cleanup_measurement X t) t c y m
      st.storage = none := rfl
  have hetl := etl_of_insert_none doc X true t c y m st.storage hacc hparse hins
  have hexn : (etl_station_month (.success doc) true t c y m st.storage).exn =
      some .storageError := by rw [hetl]
  rw [process_run_of_exn_some clock (.success doc) true t c y m wc st .storageError hw hexn]
  refine ⟨rfl, rfl, ?_⟩
  rw [hetl]

/-- Witness for C10: a wanted unit, an authorized well-formed page, and a
failing storage connection. -/
theorem claim_C10_witness :
    (process_station_month clockFar (.success emptyPage) true .hauteur 2536 (some 2019)
        (some 3) [.unknown] ⟨[], []⟩).exn = some .storageError ∧
      (process_station_month clockFar (.success emptyPage) true .hauteur 2536 (some 2019)
        (some 3) [.unknown] ⟨[], []⟩).ledger = [] ∧
      (process_station_month clockFar (.success emptyPage) true .hauteur 2536 (some 2019)
        (some 3) [.unknown] ⟨[], []⟩).storage = [] :=
  claim_C10 clockFar .hauteur 2536 2019 3 [.unknown] ⟨[], []⟩ emptyPage [] (by decide)
    (by decide) (by decide)

/-- Claim C4: for a unit whose fetch outcome is `covered`, the status
persisted into the ledger (and returned) is `incomplete` when the
year-month equals the "recent" or the "soon" year-month, and `covered`
otherwise. -/
theorem claim_C4 (clock : Clock) (fetch : FetchOutcome) (storageFails : Bool)
    (t : StationType) (c y m : Nat) (wc : List CoverageStatus) (st : ProcState)
    (hw : current_status st.ledger (coverageKey t c y m) ∈ wc)
    (hcov : (etl_station_month fetch storageFails t c y m st.storage).coverage =
      .covered) :
    (((y, m) = (clock.recent_year, clock.recent_month) ∨
        (y, m) = (clock.soon_year, clock.soon_month)) →
      (process_station_month clock fetch storageFails t c (some y) (some m) wc st).status =
          .incomplete ∧
        get_status
          (process_station_month clock fetch storageFails t c (some y) (some m) wc
            st).ledger (coverageKey t c y m) = some .incomplete) ∧
    ((¬(y, m) = (clock.recent_year, clock.recent_month) ∧
        ¬(y, m) = (clock.soon_year, clock.soon_month)) →
      (process_station_month clock fetch storageFails t c (some y) (some m) wc st).status =
          .covered ∧
        get_status
          (process_station_month clock fetch storageFails t c (some y) (some m) wc
            st).ledger (coverageKey t c y m) = some .covered) := by
  obtain ⟨hexn, -⟩ := etl_covered_exn_none fetch storageFails t c y m st.storage hcov
  rw [process_run_of_exn_none clock fetch storageFails t c y m wc st hw hexn]
  constructor
  · intro hnear
    have hadj : recencyAdjust clock y m
        (etl_station_month fetch storageFails t c y m st.storage).coverage =
        .incomplete := by
      unfold recencyAdjust
      rw [if_pos ⟨hcov, hnear⟩]
    refine ⟨hadj, ?_⟩
    rw [hadj]
    simpa [get_status] using
      lookup_set_status_self st.ledger (coverageKey t c y m) CoverageStatus.incomplete
  · intro hfar
    have hadj : recencyAdjust clock y m
        (etl_station_month fetch storageFails t c y m st.storage).coverage = .covered := by
      have hcond : ¬((etl_station_month fetch storageFails t c y m st.storage).coverage =
          .covered ∧ ((y, m) = (clock.recent_year, clock.recent_month) ∨
            (y, m) = (clock.soon_year, clock.soon_month))) := by
        rintro ⟨-, h | h⟩
        exacts [hfar.1 h, hfar.2 h]
      unfold recencyAdjust
      rw [if_neg hcond]
      exact hcov
    refine ⟨hadj, ?_⟩
    rw [hadj]
    simpa [get_status] using
      lookup_set_status_self st.ledger (coverageKey t c y m) CoverageStatus.covered

/-- Witness for C4: a successful, authorized, well-formed page for the
"recent" year-month 2019/03 is recorded `incomplete`, not `covered`. -/
theorem claim_C4_witness :
    (process_station_month clockNear (.success emptyPage) false .hauteur 2536 (some 2019)
        (some 3) [.unknown] ⟨[], []⟩).status = .incomplete ∧
      get_status
        (process_station_month clockNear (.success emptyPage) false .hauteur 2536
          (some 2019) (some 3) [.unknown] ⟨[], []⟩).ledger
        (coverageKey .hauteur 2536 2019 3) = some .incomplete :=
  (claim_C4 clockNear (.success emptyPage) false .hauteur 2536 2019 3 [.unknown] ⟨[], []⟩
      (by decide) (by decide)).1 (by decide)

/-- Claim C7: the cleaning pass keeps every entry (same length, same key at
every position), replaces every value at or below `-9000` by `0`, and
leaves every value above `-9000` unchanged; the value type admits no
null. -/
theorem claim_C7 (X : List (String × ℚ)) (t : StationType) :
    (cleanup_measurement X t).length = X.length ∧
      ∀ (i : Nat) (k : String) (v : ℚ), X.get? i = some (k, v) →
        (cleanup_measurement X t).get? i = some (k, if v ≤ -9000 then 0 else v) := by
  constructor
  · simp [cleanup_measurement]
  · intro i k v h
    unfold cleanup_measurement
    rw [List.get?_map, h]
    by_cases hv : v ≤ -9000
    · simp [hv]
    · simp [hv]

/-- Witness for C7: the sentinel `-9500` becomes `0`, the ordinary value
`7` is untouched. -/
theorem claim_C7_witness :
    (cleanup_measurement [("a", (-9500 : ℚ)), ("b", 7)] .hauteur).length = 2 ∧
      (cleanup_measurement [("a", (-9500 : ℚ)), ("b", 7)] .hauteur).get? 0 =
        some ("a", if (-9500 : ℚ) ≤ -9000 then 0 else -9500) ∧
      (cleanup_measurement [("a", (-9500 : ℚ)), ("b", 7)] .hauteur).get? 1 =
        some ("b", if (7 : ℚ) ≤ -9000 then 0 else 7) :=
  ⟨(claim_C7 [("a", (-9500 : ℚ)), ("b", 7)] .hauteur).1,
    (claim_C7 [("a", (-9500 : ℚ)), ("b", 7)] .hauteur).2 0 "a" (-9500) rfl,
    (claim_C7 [("a", (-9500 : ℚ)), ("b", 7)] .hauteur).2 1 "b" 7 rfl⟩

/-- Claim C8: every non-empty cell of a parsed page yields one measurement
record: the cell text has its `*` annotation markers stripped before the
numeric conversion, and the record is keyed by the reconstructed UTC+1
timestamp of the cell's day and hour. -/
theorem claim_C8 (doc : Document) (X : List (String × ℚ))
    (hX : parseMeasurements doc = some X) (hour day : Nat) (row : List String) (s : String)
    (hhour1 : 1 ≤ hour) (hhour2 : hour ≤ 24)
    (hrow : doc.rows.get? (hour - 1) = some row)
    (hday : 1 ≤ day) (hcell : (row.drop 1).get? (day - 1) = some s) (hne : s ≠ "") :
    ∃ v : ℚ, parseCell s = some v ∧ parseDecimal (stripStars s) = some v ∧
      (datetimeString doc.year doc.month day hour, v) ∈ X := by
  unfold parseMeasurements at hX
  by_cases hlen : doc.rows.length < 24
  · rw [if_pos hlen] at hX
    exact absurd hX (by simp)
  · rw [if_neg hlen] at hX
    have htake : (doc.rows.take 24).get? (hour - 1) = some row := by
      rw [List.get?_take (by omega)]
      exact hrow
    obtain ⟨v, hv, hmem⟩ := parseHoursAux_mem doc.year doc.month (doc.rows.take 24) 1 X
      (hour - 1) row (day - 1) s hX htake hcell hne
    refine ⟨v, hv, ?_, ?_⟩
    · rw [← parseCell_eq_parseDecimal_stripStars]
      exact hv
    · rwa [show 1 + (day - 1) = day from by omega,
        show 1 + (hour - 1) = hour from by omega] at hmem

/-- Witness for C8: the cell text `12.3*` in day 1, hour 1 of a page for
2019/03 yields the value `123/10 = 12.3` at timestamp
`2019-03-01 01:00:00+01`. -/
theorem claim_C8_witness :
    ∃ v : ℚ, parseCell "12.3*" = some v ∧ parseDecimal (stripStars "12.3*") = some v ∧
      (datetimeString 2019 3 1 1, v) ∈ [(datetimeString 2019 3 1 1, mkRat 123 10)] :=
  claim_C8 starPage [(datetimeString 2019 3 1 1, mkRat 123 10)] (by decide) 1 1
    ["hdr", "12.3*"] "12.3*" (by decide) (by decide) (by decide) (by decide) (by decide)
    (by decide)

/-- Claim C1, counterexample: with the default
`want_covered = [bare, unknown]` and a fetch that fails with a network
error, the first run stores status `bare`, which is still in
`want_covered`; re-running with the same arguments and the same
`want_covered` performs a second fetch — so the claim's universal
"no second fetch, because the status produced by the first run moves out
of want_covered" is false on the code. -/
theorem claim_C1_counterexample :
    (process_station_month clockFar .urlError false .hauteur 2536 (some 2019) (some 3)
        [.bare, .unknown] ⟨[], []⟩).fetched = true ∧
      (process_station_month clockFar .urlError false .hauteur 2536 (some 2019) (some 3)
          [.bare, .unknown]
          ⟨(process_station_month clockFar .urlError false .hauteur 2536 (some 2019)
              (some 3) [.bare, .unknown] ⟨[], []⟩).ledger,
            (process_station_month clockFar .urlError false .hauteur 2536 (some 2019)
              (some 3) [.bare, .unknown] ⟨[], []⟩).storage⟩).fetched = true := by
  decide

/-- Claim C1 as amended: if the first run returns normally and the status
it produces is not in `want_covered`, then the second run with the same
arguments and the same `want_covered` performs no fetch and no storage
write, returns the same status, and leaves ledger and storage exactly as
the first run left them. -/
theorem claim_C1 (clock : Clock) (fetch : FetchOutcome) (storageFails : Bool)
    (t : StationType) (c y m : Nat) (wc : List CoverageStatus) (st : ProcState)
    (hexn :
      (process_station_month clock fetch storageFails t c (some y) (some m) wc st).exn =
        none)
    (hout :
      (process_station_month clock fetch storageFails t c (some y) (some m) wc st).status ∉
        wc) :
    process_station_month clock fetch storageFails t c (some y) (some m) wc
        ⟨(process_station_month clock fetch storageFails t c (some y) (some m) wc
            st).ledger,
          (process_station_month clock fetch storageFails t c (some y) (some m) wc
            st).storage⟩ =
      { exn := none,
        status :=
          (process_station_month clock fetch storageFails t c (some y) (some m) wc
            st).status,
        ledger :=
          (process_station_month clock fetch storageFails t c (some y) (some m) wc
            st).ledger,
        storage :=
          (process_station_month clock fetch storageFails t c (some y) (some m) wc
            st).storage,
        fetched := false, wroteStorage := false } := by
  have hcur := process_status_current clock fetch storageFails t c y m wc st hexn
  have hnot : current_status
      (process_station_month clock fetch storageFails t c (some y) (some m) wc st).ledger
      (coverageKey t c y m) ∉ wc := by
    rw [hcur]
    exact hout
  have hskip := process_skip clock fetch storageFails t c y m wc
    ⟨(process_station_month clock fetch storageFails t c (some y) (some m) wc st).ledger,
      (process_station_month clock fetch storageFails t c (some y) (some m) wc
        st).storage⟩ hnot
  rw [hskip]
  rw [show current_status
      ((⟨(process_station_month clock fetch storageFails t c (some y) (some m) wc
            st).ledger,
          (process_station_month clock fetch storageFails t c (some y) (some m) wc
            st).storage⟩ : ProcState)).ledger (coverageKey t c y m) =
      (process_station_month clock fetch storageFails t c (some y) (some m) wc st).status
    from hcur]

/-- Witness for the amended C1: a successful fetch of a well-formed page
for a non-near year-month with the default `want_covered` produces
`covered`, which is not in `want_covered`; the second run is a no-op. -/
theorem claim_C1_witness :
    process_station_month clockFar (.success emptyPage) false .hauteur 2536 (some 2019)
        (some 3) [.bare, .unknown]
        ⟨(process_station_month clockFar (.success emptyPage) false .hauteur 2536
            (some 2019) (some 3) [.bare, .unknown] ⟨[], []⟩).ledger,
          (process_station_month clockFar (.success emptyPage) false .hauteur 2536
            (some 2019) (some 3) [.bare, .unknown] ⟨[], []⟩).storage⟩ =
      { exn := none,
        status :=
          (process_station_month clockFar (.success emptyPage) false .hauteur 2536
            (some 2019) (some 3) [.bare, .unknown] ⟨[], []⟩).status,
        ledger :=
          (process_station_month clockFar (.success emptyPage) false .hauteur 2536
            (some 2019) (some 3) [.bare, .unknown] ⟨[], []⟩).ledger,
        storage :=
          (process_station_month clockFar (.success emptyPage) false .hauteur 2536
            (some 2019) (some 3) [.bare, .unknown] ⟨[], []⟩).storage,
        fetched := false, wroteStorage := false } :=
  claim_C1 clockFar (.success emptyPage) false .hauteur 2536 2019 3 [.bare, .unknown]
    ⟨[], []⟩ (by decide) (by decide)

end Chaudfontaine
